import Mathlib

/-!
Shallow embedding of `src/main.py`, a FastAPI gateway over a lip-sync
generation SDK and the Cloudinary uploader.

Each HTTP handler is modelled as a pure function over an `Env` record that
gives the behaviour of the two collaborators (the Media Uploader and the
Generation Client).  A collaborator call either returns a value or raises a
Python exception (`PyExc`).  Handlers return the final HTTP outcome together
with the ordered trace of collaborator calls they performed, so that claims
about call order and about calls never happening can be stated.
-/

/-- Models a Python exception as far as the gateway observes it: either a
generic exception whose `str()` is its message, or a
`fastapi.HTTPException status_code detail`, whose `str()` (inherited from
Starlette) is the string `"{status_code}: {detail}"`. -/
inductive PyExc where
  | generic (msg : String)
  | httpException (status_code : Nat) (detail : String)
deriving DecidableEq, Repr

/-- Python `str(e)` for the exceptions modelled by `PyExc`.  For a plain
`Exception("m")` this is `"m"`; for a Starlette/FastAPI `HTTPException` the
inherited dunder gives `"{status_code}: {detail}"`. -/
def PyExc.str : PyExc → String
  | .generic msg => msg
  | .httpException status_code detail => toString status_code ++ ": " ++ detail

/-- Python truthiness of an optional string (`os.getenv` result or
`dict.get("secure_url")` result): `None` and the empty string are falsy. -/
def pyTruthy : Option String → Bool
  | none => false
  | some s => !s.isEmpty

/-- Input descriptor `Video(url=...)` from `src.sync.common`. -/
structure Video where
  url : String
deriving DecidableEq, Repr

/-- Input descriptor `Audio(url=...)` from `src.sync.common`. -/
structure Audio where
  url : String
deriving DecidableEq, Repr

/-- One element of the `input` list passed to the Generation Client. -/
inductive InputItem where
  | video (v : Video)
  | audio (a : Audio)
deriving DecidableEq, Repr

/-- The part of a Cloudinary upload result the gateway reads: the value of
`result.get("secure_url")`, `none` when the key is absent. -/
structure UploadResult where
  secure_url : Option String
deriving DecidableEq, Repr

/-- Model of `fastapi.UploadFile`; the gateway only ever reads its `.file`
stream, modelled as an opaque token. -/
structure UploadFile where
  file : String
deriving DecidableEq, Repr

/-- One collaborator call, with the arguments the gateway passed to it. -/
inductive CallEvent where
  | upload (file : String) (resource_type : String) (folder : String)
  | create (input : List InputItem) (model : String)
  | get (id : String)
  | list
  | estimate_cost (input : List InputItem) (model : String)
deriving DecidableEq, Repr

/-- Whether a call event is a Generation Client call (as opposed to a Media
Uploader call). -/
def CallEvent.isClientCall : CallEvent → Bool
  | .upload _ _ _ => false
  | _ => true

/-- Behaviour of the two collaborators during one request: each operation
either returns a value or raises.  `α` is the opaque type of records the
Generation Client returns (job records, cost estimates, listings). -/
structure Env (α : Type) where
  upload : String → String → String → Except PyExc UploadResult
  create : List InputItem → String → Except PyExc α
  get : String → Except PyExc α
  list : Except PyExc α
  estimate_cost : List InputItem → String → Except PyExc α

/-- Outcome of one HTTP request: a success payload, or a failure with an
HTTP status code and a detail string (FastAPI renders a raised
`HTTPException(status_code, detail)` this way). -/
inductive HTTPResult (α : Type) where
  | success (v : α)
  | failure (status : Nat) (detail : String)
deriving DecidableEq, Repr

/-- Result of running a handler body: the Python-level outcome (value or
escaping exception) together with the trace of collaborator calls made. -/
def Traced (α : Type) : Type := Except PyExc α × List CallEvent

/-- Models `except Exception as e: raise HTTPException(status_code=code,
detail=str(e))` wrapped around a handler body, then FastAPI turning the
escaping `HTTPException` into an HTTP response.  A value returned by the body
becomes a success response. -/
def exceptWrap {α : Type} (code : Nat) (r : Traced α) : HTTPResult α × List CallEvent :=
  match r with
  | (.ok v, t) => (.success v, t)
  | (.error e, t) => (.failure code (PyExc.str e), t)

/-- Pydantic model `CreateGenerationRequest`: `video_url`, `audio_url`, and
`model` with default `"lipsync-2"`. -/
structure CreateGenerationRequest where
  video_url : String
  audio_url : String
  model : String := "lipsync-2"
deriving DecidableEq, Repr

/-- A JSON request body for `POST /generations` before pydantic parsing:
`model` may be omitted. -/
structure CreateGenerationBody where
  video_url : String
  audio_url : String
  model : Option String
deriving DecidableEq, Repr

/-- Pydantic parsing of the body into `CreateGenerationRequest`: an omitted
`model` takes the declared default `"lipsync-2"`. -/
def CreateGenerationRequest.ofBody (b : CreateGenerationBody) : CreateGenerationRequest :=
  { video_url := b.video_url, audio_url := b.audio_url,
    model := b.model.getD "lipsync-2" }

/-- Resolution of the `model: str = Form("lipsync-2")` parameter of the two
multipart endpoints: an absent form field takes the default. -/
def formModel (m : Option String) : String := m.getD "lipsync-2"

/-- Body of `create_generation` (`POST /generations`): build the two-element
input list and call `client.generations.create(input=inputs, model=...)`. -/
def create_generation_body {α : Type} (env : Env α) (request : CreateGenerationRequest) :
    Traced α :=
  let inputs := [InputItem.video ⟨request.video_url⟩, InputItem.audio ⟨request.audio_url⟩]
  (env.create inputs request.model, [CallEvent.create inputs request.model])

/-- Handler for `POST /generations`: the body inside
`try ... except Exception as e: raise HTTPException(500, str(e))`. -/
def create_generation {α : Type} (env : Env α) (request : CreateGenerationRequest) :
    HTTPResult α × List CallEvent :=
  exceptWrap 500 (create_generation_body env request)

/-- Body of `get_generation` (`GET /generations/{id}`): call
`client.generations.get(id)` with the path segment unmodified. -/
def get_generation_body {α : Type} (env : Env α) (id : String) : Traced α :=
  (env.get id, [CallEvent.get id])

/-- Handler for `GET /generations/{id}`: the body inside
`try ... except Exception as e: raise HTTPException(404, str(e))`. -/
def get_generation {α : Type} (env : Env α) (id : String) :
    HTTPResult α × List CallEvent :=
  exceptWrap 404 (get_generation_body env id)

/-- Body of `list_generations` (`GET /generations`): call
`client.generations.list()`. -/
def list_generations_body {α : Type} (env : Env α) : Traced α :=
  (env.list, [CallEvent.list])

/-- Handler for `GET /generations`: the body inside
`try ... except Exception as e: raise HTTPException(500, str(e))`. -/
def list_generations {α : Type} (env : Env α) : HTTPResult α × List CallEvent :=
  exceptWrap 500 (list_generations_body env)

/-- Body of `estimate_cost` (`POST /generations/estimate-cost`): upload the
video, then the audio, to Cloudinary (both with `resource_type="video"` and
`folder="lipsync_uploads"`); if either `secure_url` is falsy raise
`HTTPException(500, "File upload to Cloudinary failed for cost estimation.")`;
otherwise call `client.generations.estimate_cost` on the two URLs. -/
def estimate_cost_body {α : Type} (env : Env α) (video_file audio_file : UploadFile)
    (model : String) : Traced α :=
  let vEvent := CallEvent.upload video_file.file "video" "lipsync_uploads"
  match env.upload video_file.file "video" "lipsync_uploads" with
  | .error e => (.error e, [vEvent])
  | .ok video_upload_result =>
    let aEvent := CallEvent.upload audio_file.file "video" "lipsync_uploads"
    match env.upload audio_file.file "video" "lipsync_uploads" with
    | .error e => (.error e, [vEvent, aEvent])
    | .ok audio_upload_result =>
      let video_url := video_upload_result.secure_url
      let audio_url := audio_upload_result.secure_url
      if !pyTruthy video_url || !pyTruthy audio_url then
        (.error (.httpException 500 "File upload to Cloudinary failed for cost estimation."),
         [vEvent, aEvent])
      else
        let inputs := [InputItem.video ⟨video_url.getD ""⟩, InputItem.audio ⟨audio_url.getD ""⟩]
        (env.estimate_cost inputs model, [vEvent, aEvent, CallEvent.estimate_cost inputs model])

/-- Handler for `POST /generations/estimate-cost`: the body inside
`try ... except Exception as e: raise HTTPException(500, str(e))`. -/
def estimate_cost {α : Type} (env : Env α) (video_file audio_file : UploadFile)
    (model : String) : HTTPResult α × List CallEvent :=
  exceptWrap 500 (estimate_cost_body env video_file audio_file model)

/-- Body of `upload_and_generate` (`POST /upload-and-generate`): the same
upload sequence as `estimate_cost_body`, with failure detail
`"File upload to Cloudinary failed."`, then `client.generations.create` on
the two URLs. -/
def upload_and_generate_body {α : Type} (env : Env α) (video_file audio_file : UploadFile)
    (model : String) : Traced α :=
  let vEvent := CallEvent.upload video_file.file "video" "lipsync_uploads"
  match env.upload video_file.file "video" "lipsync_uploads" with
  | .error e => (.error e, [vEvent])
  | .ok video_upload_result =>
    let aEvent := CallEvent.upload audio_file.file "video" "lipsync_uploads"
    match env.upload audio_file.file "video" "lipsync_uploads" with
    | .error e => (.error e, [vEvent, aEvent])
    | .ok audio_upload_result =>
      let video_url := video_upload_result.secure_url
      let audio_url := audio_upload_result.secure_url
      if !pyTruthy video_url || !pyTruthy audio_url then
        (.error (.httpException 500 "File upload to Cloudinary failed."), [vEvent, aEvent])
      else
        let inputs := [InputItem.video ⟨video_url.getD ""⟩, InputItem.audio ⟨audio_url.getD ""⟩]
        (env.create inputs model, [vEvent, aEvent, CallEvent.create inputs model])

/-- Handler for `POST /upload-and-generate`: the body inside
`try ... except Exception as e: raise HTTPException(500, str(e))`. -/
def upload_and_generate {α : Type} (env : Env α) (video_file audio_file : UploadFile)
    (model : String) : HTTPResult α × List CallEvent :=
  exceptWrap 500 (upload_and_generate_body env video_file audio_file model)

/-- The static payload returned by `read_root`. -/
structure RootMessage where
  message : String
deriving DecidableEq, Repr

/-- Handler for `GET /`: returns the static welcome payload; the
collaborators in scope are never called, so the trace is empty. -/
def read_root {α : Type} (_env : Env α) : RootMessage × List CallEvent :=
  ({ message := "Welcome to the LipSync API. Visit /docs for documentation." }, [])

/-- Module-load check of `src/main.py`:
`API_KEY = os.getenv("API_KEY"); if not API_KEY: raise RuntimeError(...)`.
The argument is the value of the `API_KEY` environment variable (`none` when
absent); on success the key is returned and startup proceeds. -/
def startup (apiKeyEnv : Option String) : Except PyExc String :=
  if pyTruthy apiKeyEnv then .ok (apiKeyEnv.getD "")
  else .error (.generic "API_KEY environment variable not set.")

/-- The collaborator-call event for a Cloudinary upload of a file, as both
multipart handlers issue it: `resource_type="video"`, `folder="lipsync_uploads"`. -/
def uploadEvent (f : UploadFile) : CallEvent :=
  CallEvent.upload f.file "video" "lipsync_uploads"

/-- A concrete environment in which every collaborator call succeeds. -/
def envOkNat : Env Nat where
  upload := fun _ _ _ => .ok ⟨some "https://res.cloudinary.com/demo/v.mp4"⟩
  create := fun _ _ => .ok 7
  get := fun _ => .ok 8
  list := .ok 9
  estimate_cost := fun _ _ => .ok 10

/-- A concrete environment in which every collaborator call raises
`Exception("quota exceeded")`. -/
def envQuotaNat : Env Nat where
  upload := fun _ _ _ => .error (.generic "quota exceeded")
  create := fun _ _ => .error (.generic "quota exceeded")
  get := fun _ => .error (.generic "quota exceeded")
  list := .error (.generic "quota exceeded")
  estimate_cost := fun _ _ => .error (.generic "quota exceeded")

/-- A concrete environment in which uploads succeed but their result dict has
no `secure_url` key, while Generation Client calls would succeed. -/
def envNoUrlNat : Env Nat where
  upload := fun _ _ _ => .ok ⟨none⟩
  create := fun _ _ => .ok 7
  get := fun _ => .ok 8
  list := .ok 9
  estimate_cost := fun _ _ => .ok 10

/-- C1: `POST /generations` makes exactly one collaborator call, the create
operation, whose input list is `[video descriptor, audio descriptor]` built
from the request URLs and whose model is the request model unmodified; when
create returns a value, the response is exactly that value. -/
theorem create_generation_forwards_inputs {α : Type} (env : Env α)
    (request : CreateGenerationRequest) :
    (create_generation env request).2 =
      [CallEvent.create
        [InputItem.video ⟨request.video_url⟩, InputItem.audio ⟨request.audio_url⟩]
        request.model] ∧
    ∀ g : α,
      env.create
          [InputItem.video ⟨request.video_url⟩, InputItem.audio ⟨request.audio_url⟩]
          request.model = .ok g →
      (create_generation env request).1 = .success g := by
  constructor
  · cases h : env.create
        [InputItem.video ⟨request.video_url⟩, InputItem.audio ⟨request.audio_url⟩]
        request.model <;>
      simp [create_generation, create_generation_body, exceptWrap, h]
  · intro g hg
    simp [create_generation, create_generation_body, exceptWrap, hg]

/-- Witness for C1 at a concrete request and environment. -/
theorem create_generation_forwards_inputs_witness :
    (create_generation envOkNat
      { video_url := "https://x/v.mp4", audio_url := "https://x/a.mp3" }).1 =
      HTTPResult.success 7 :=
  (create_generation_forwards_inputs envOkNat
    { video_url := "https://x/v.mp4", audio_url := "https://x/a.mp3" }).2 7 rfl

/-- C2: for `POST /generations`, `GET /generations`,
`POST /generations/estimate-cost` and `POST /upload-and-generate`, every
exception `e` raised by a collaborator call (the create, list or
estimate-cost operations, or either Cloudinary upload) is caught at the
handler boundary and reported as a 500 failure whose detail is exactly
`str(e)`; with `e = Exception("quota exceeded")` the detail is literally
`"quota exceeded"`. -/
theorem collaborator_errors_become_500 {α : Type} (env : Env α) (e : PyExc) :
    (∀ request : CreateGenerationRequest,
      env.create
          [InputItem.video ⟨request.video_url⟩, InputItem.audio ⟨request.audio_url⟩]
          request.model = .error e →
      (create_generation env request).1 = .failure 500 (PyExc.str e)) ∧
    (env.list = .error e → (list_generations env).1 = .failure 500 (PyExc.str e)) ∧
    (∀ vf af : UploadFile, ∀ model : String,
      env.upload vf.file "video" "lipsync_uploads" = .error e →
      (estimate_cost env vf af model).1 = .failure 500 (PyExc.str e) ∧
      (upload_and_generate env vf af model).1 = .failure 500 (PyExc.str e)) ∧
    (∀ vf af : UploadFile, ∀ model : String, ∀ vres : UploadResult,
      env.upload vf.file "video" "lipsync_uploads" = .ok vres →
      env.upload af.file "video" "lipsync_uploads" = .error e →
      (estimate_cost env vf af model).1 = .failure 500 (PyExc.str e) ∧
      (upload_and_generate env vf af model).1 = .failure 500 (PyExc.str e)) ∧
    (∀ vf af : UploadFile, ∀ model : String, ∀ vres ares : UploadResult,
      env.upload vf.file "video" "lipsync_uploads" = .ok vres →
      env.upload af.file "video" "lipsync_uploads" = .ok ares →
      pyTruthy vres.secure_url = true → pyTruthy ares.secure_url = true →
      (env.estimate_cost
          [InputItem.video ⟨vres.secure_url.getD ""⟩, InputItem.audio ⟨ares.secure_url.getD ""⟩]
          model = .error e →
        (estimate_cost env vf af model).1 = .failure 500 (PyExc.str e)) ∧
      (env.create
          [InputItem.video ⟨vres.secure_url.getD ""⟩, InputItem.audio ⟨ares.secure_url.getD ""⟩]
          model = .error e →
        (upload_and_generate env vf af model).1 = .failure 500 (PyExc.str e))) := by
  refine ⟨?_, ?_, ?_, ?_, ?_⟩
  · intro request hc
    simp [create_generation, create_generation_body, exceptWrap, hc]
  · intro hl
    simp [list_generations, list_generations_body, exceptWrap, hl]
  · intro vf af model hv
    constructor <;>
      simp [estimate_cost, estimate_cost_body, upload_and_generate,
        upload_and_generate_body, exceptWrap, hv]
  · intro vf af model vres hv ha
    constructor <;>
      simp [estimate_cost, estimate_cost_body, upload_and_generate,
        upload_and_generate_body, exceptWrap, hv, ha]
  · intro vf af model vres ares hv ha hvt hat
    constructor <;> intro hcall <;>
      simp [estimate_cost, estimate_cost_body, upload_and_generate,
        upload_and_generate_body, exceptWrap, hv, ha, hvt, hat, hcall]

/-- Witness for C2: in an environment whose create operation raises
`Exception("quota exceeded")`, `POST /generations` responds with a 500
failure whose detail is the string `"quota exceeded"`. -/
theorem collaborator_errors_become_500_witness :
    (create_generation envQuotaNat
      { video_url := "https://x/v.mp4", audio_url := "https://x/a.mp3" }).1 =
      HTTPResult.failure 500 "quota exceeded" :=
  (collaborator_errors_become_500 envQuotaNat (.generic "quota exceeded")).1
    { video_url := "https://x/v.mp4", audio_url := "https://x/a.mp3" } rfl

/-- C3: `GET /generations/{id}` makes exactly one collaborator call, the get
operation applied to the path segment unmodified, and every exception raised
by the lookup yields a 404 failure whose detail is the exception's textual
message. -/
theorem get_generation_passes_id_and_404 {α : Type} (env : Env α) (id : String) :
    (get_generation env id).2 = [CallEvent.get id] ∧
    ∀ e : PyExc, env.get id = .error e →
      (get_generation env id).1 = .failure 404 (PyExc.str e) := by
  constructor
  · cases h : env.get id <;> simp [get_generation, get_generation_body, exceptWrap, h]
  · intro e he
    simp [get_generation, get_generation_body, exceptWrap, he]

/-- Witness for C3 at a concrete identifier and a failing environment. -/
theorem get_generation_passes_id_and_404_witness :
    (get_generation envQuotaNat "gen_12345").1 =
      HTTPResult.failure 404 "quota exceeded" :=
  (get_generation_passes_id_and_404 envQuotaNat "gen_12345").2
    (.generic "quota exceeded") rfl

/-- C4: in both multipart endpoints, when both uploads return but either
result carries no `secure_url`, the handler fails with status 500 and no
Generation Client operation is called during the request: the trace holds
only upload events. -/
theorem missing_secure_url_blocks_client {α : Type} (env : Env α)
    (vf af : UploadFile) (model : String) (vres ares : UploadResult)
    (hv : env.upload vf.file "video" "lipsync_uploads" = .ok vres)
    (ha : env.upload af.file "video" "lipsync_uploads" = .ok ares)
    (hmiss : vres.secure_url = none ∨ ares.secure_url = none) :
    ((∃ d, (estimate_cost env vf af model).1 = .failure 500 d) ∧
      ∀ ev ∈ (estimate_cost env vf af model).2, ev.isClientCall = false) ∧
    ((∃ d, (upload_and_generate env vf af model).1 = .failure 500 d) ∧
      ∀ ev ∈ (upload_and_generate env vf af model).2, ev.isClientCall = false) := by
  have hcond : (!pyTruthy vres.secure_url || !pyTruthy ares.secure_url) = true := by
    rcases hmiss with h | h <;> simp [h, pyTruthy]
  constructor <;>
    constructor <;>
      simp [estimate_cost, estimate_cost_body, upload_and_generate,
        upload_and_generate_body, exceptWrap, hv, ha, hcond, CallEvent.isClientCall]

/-- Witness for C4 in a concrete environment whose uploads return no URL. -/
theorem missing_secure_url_blocks_client_witness :
    ((∃ d, (estimate_cost envNoUrlNat ⟨"v.mp4"⟩ ⟨"a.mp3"⟩ "lipsync-2").1 =
        HTTPResult.failure 500 d) ∧
      ∀ ev ∈ (estimate_cost envNoUrlNat ⟨"v.mp4"⟩ ⟨"a.mp3"⟩ "lipsync-2").2,
        ev.isClientCall = false) ∧
    ((∃ d, (upload_and_generate envNoUrlNat ⟨"v.mp4"⟩ ⟨"a.mp3"⟩ "lipsync-2").1 =
        HTTPResult.failure 500 d) ∧
      ∀ ev ∈ (upload_and_generate envNoUrlNat ⟨"v.mp4"⟩ ⟨"a.mp3"⟩ "lipsync-2").2,
        ev.isClientCall = false) :=
  missing_secure_url_blocks_client envNoUrlNat ⟨"v.mp4"⟩ ⟨"a.mp3"⟩ "lipsync-2"
    ⟨none⟩ ⟨none⟩ rfl rfl (Or.inl rfl)

/-- Counterexample to C5: when the uploads yield no `secure_url`, the
delivered detail is not the literal message from the raised
`HTTPException`.  The inner `HTTPException(500, msg)` is itself caught by the
handler's `except Exception` clause and re-raised as
`HTTPException(500, str(e))`, and `str` of a Starlette `HTTPException` is
`"{status_code}: {detail}"`, so the delivered detail is the message prefixed
with `"500: "`. -/
theorem upload_failure_detail_counterexample :
    (estimate_cost envNoUrlNat ⟨"v.mp4"⟩ ⟨"a.mp3"⟩ "lipsync-2").1 ≠
      HTTPResult.failure 500 "File upload to Cloudinary failed for cost estimation." ∧
    (estimate_cost envNoUrlNat ⟨"v.mp4"⟩ ⟨"a.mp3"⟩ "lipsync-2").1 =
      HTTPResult.failure 500 "500: File upload to Cloudinary failed for cost estimation." ∧
    (upload_and_generate envNoUrlNat ⟨"v.mp4"⟩ ⟨"a.mp3"⟩ "lipsync-2").1 ≠
      HTTPResult.failure 500 "File upload to Cloudinary failed." ∧
    (upload_and_generate envNoUrlNat ⟨"v.mp4"⟩ ⟨"a.mp3"⟩ "lipsync-2").1 =
      HTTPResult.failure 500 "500: File upload to Cloudinary failed." := by
  refine ⟨by decide, by decide, by decide, by decide⟩

/-- C5 as amended: when either upload yields no usable URL, the 500 failure
of `POST /generations/estimate-cost` carries the detail
`"500: File upload to Cloudinary failed for cost estimation."` and that of
`POST /upload-and-generate` carries
`"500: File upload to Cloudinary failed."` — the stated message prefixed by
the status code, because the raised `HTTPException` is re-caught and
stringified by the handler's own catch-all clause. -/
theorem upload_failure_detail_prefixed {α : Type} (env : Env α)
    (vf af : UploadFile) (model : String) (vres ares : UploadResult)
    (hv : env.upload vf.file "video" "lipsync_uploads" = .ok vres)
    (ha : env.upload af.file "video" "lipsync_uploads" = .ok ares)
    (hmiss : pyTruthy vres.secure_url = false ∨ pyTruthy ares.secure_url = false) :
    (estimate_cost env vf af model).1 =
      HTTPResult.failure 500 "500: File upload to Cloudinary failed for cost estimation." ∧
    (upload_and_generate env vf af model).1 =
      HTTPResult.failure 500 "500: File upload to Cloudinary failed." := by
  have hcond : (!pyTruthy vres.secure_url || !pyTruthy ares.secure_url) = true := by
    rcases hmiss with h | h <;> simp [h]
  constructor <;>
    simp [estimate_cost, estimate_cost_body, upload_and_generate,
      upload_and_generate_body, exceptWrap, hv, ha, hcond, PyExc.str] <;>
    rfl

/-- Witness for the amended C5 at a concrete environment. -/
theorem upload_failure_detail_prefixed_witness :
    (estimate_cost envNoUrlNat ⟨"v.mp4"⟩ ⟨"a.mp3"⟩ "lipsync-2").1 =
      HTTPResult.failure 500 "500: File upload to Cloudinary failed for cost estimation." ∧
    (upload_and_generate envNoUrlNat ⟨"v.mp4"⟩ ⟨"a.mp3"⟩ "lipsync-2").1 =
      HTTPResult.failure 500 "500: File upload to Cloudinary failed." :=
  upload_failure_detail_prefixed envNoUrlNat ⟨"v.mp4"⟩ ⟨"a.mp3"⟩ "lipsync-2"
    ⟨none⟩ ⟨none⟩ rfl rfl (Or.inl rfl)

/-- C10: in both multipart endpoints, when the video upload returns without
raising but its result carries no `secure_url`, the audio upload is still
attempted, because the handler checks both URLs only after both upload
calls. -/
theorem audio_upload_attempted_despite_missing_video_url {α : Type}
    (env : Env α) (vf af : UploadFile) (model : String) (vres : UploadResult)
    (hv : env.upload vf.file "video" "lipsync_uploads" = .ok vres)
    (hmiss : vres.secure_url = none) :
    uploadEvent af ∈ (estimate_cost env vf af model).2 ∧
    uploadEvent af ∈ (upload_and_generate env vf af model).2 := by
  have hvt : pyTruthy vres.secure_url = false := by simp [hmiss, pyTruthy]
  constructor <;>
    cases ha : env.upload af.file "video" "lipsync_uploads" <;>
      simp [estimate_cost, estimate_cost_body, upload_and_generate,
        upload_and_generate_body, exceptWrap, uploadEvent, hv, ha, hvt]

/-- Witness for C10 at a concrete environment whose uploads return no URL. -/
theorem audio_upload_attempted_despite_missing_video_url_witness :
    uploadEvent ⟨"a.mp3"⟩ ∈
      (estimate_cost envNoUrlNat ⟨"v.mp4"⟩ ⟨"a.mp3"⟩ "lipsync-2").2 ∧
    uploadEvent ⟨"a.mp3"⟩ ∈
      (upload_and_generate envNoUrlNat ⟨"v.mp4"⟩ ⟨"a.mp3"⟩ "lipsync-2").2 :=
  audio_upload_attempted_despite_missing_video_url envNoUrlNat ⟨"v.mp4"⟩ ⟨"a.mp3"⟩
    "lipsync-2" ⟨none⟩ rfl rfl

/-- Possible collaborator-call traces of `POST /generations/estimate-cost`:
the video upload alone (it raised), the video then audio uploads (the audio
upload raised or a URL was missing), or both uploads followed by the
estimate-cost call. -/
theorem estimate_cost_trace_cases {α : Type} (env : Env α)
    (vf af : UploadFile) (model : String) :
    (estimate_cost env vf af model).2 = [uploadEvent vf] ∨
    (estimate_cost env vf af model).2 = [uploadEvent vf, uploadEvent af] ∨
    ∃ inputs, (estimate_cost env vf af model).2 =
      [uploadEvent vf, uploadEvent af, CallEvent.estimate_cost inputs model] := by
  cases hv : env.upload vf.file "video" "lipsync_uploads" with
  | error e =>
    left
    simp [estimate_cost, estimate_cost_body, exceptWrap, uploadEvent, hv]
  | ok vres =>
    cases ha : env.upload af.file "video" "lipsync_uploads" with
    | error e =>
      right; left
      simp [estimate_cost, estimate_cost_body, exceptWrap, uploadEvent, hv, ha]
    | ok ares =>
      cases hc : (!pyTruthy vres.secure_url || !pyTruthy ares.secure_url) with
      | true =>
        right; left
        simp [estimate_cost, estimate_cost_body, exceptWrap, uploadEvent, hv, ha, hc]
      | false =>
        right; right
        refine ⟨[InputItem.video ⟨vres.secure_url.getD ""⟩,
                 InputItem.audio ⟨ares.secure_url.getD ""⟩], ?_⟩
        cases hci : env.estimate_cost
            [InputItem.video ⟨vres.secure_url.getD ""⟩,
             InputItem.audio ⟨ares.secure_url.getD ""⟩] model <;>
          simp [estimate_cost, estimate_cost_body, exceptWrap, uploadEvent,
            hv, ha, hc, hci]

/-- Possible collaborator-call traces of `POST /upload-and-generate`: the
video upload alone, the video then audio uploads, or both uploads followed
by the create call. -/
theorem upload_and_generate_trace_cases {α : Type} (env : Env α)
    (vf af : UploadFile) (model : String) :
    (upload_and_generate env vf af model).2 = [uploadEvent vf] ∨
    (upload_and_generate env vf af model).2 = [uploadEvent vf, uploadEvent af] ∨
    ∃ inputs, (upload_and_generate env vf af model).2 =
      [uploadEvent vf, uploadEvent af, CallEvent.create inputs model] := by
  cases hv : env.upload vf.file "video" "lipsync_uploads" with
  | error e =>
    left
    simp [upload_and_generate, upload_and_generate_body, exceptWrap, uploadEvent, hv]
  | ok vres =>
    cases ha : env.upload af.file "video" "lipsync_uploads" with
    | error e =>
      right; left
      simp [upload_and_generate, upload_and_generate_body, exceptWrap, uploadEvent, hv, ha]
    | ok ares =>
      cases hc : (!pyTruthy vres.secure_url || !pyTruthy ares.secure_url) with
      | true =>
        right; left
        simp [upload_and_generate, upload_and_generate_body, exceptWrap, uploadEvent,
          hv, ha, hc]
      | false =>
        right; right
        refine ⟨[InputItem.video ⟨vres.secure_url.getD ""⟩,
                 InputItem.audio ⟨ares.secure_url.getD ""⟩], ?_⟩
        cases hci : env.create
            [InputItem.video ⟨vres.secure_url.getD ""⟩,
             InputItem.audio ⟨ares.secure_url.getD ""⟩] model <;>
          simp [upload_and_generate, upload_and_generate_body, exceptWrap, uploadEvent,
            hv, ha, hc, hci]

/-- C7: within a single request to either multipart endpoint, the trace of
collaborator calls always starts with the video upload, followed (when
anything follows at all) by the audio upload: the audio upload is never
attempted first. -/
theorem video_upload_precedes_audio {α : Type} (env : Env α)
    (vf af : UploadFile) (model : String) :
    ((estimate_cost env vf af model).2 = [uploadEvent vf] ∨
     (estimate_cost env vf af model).2 = [uploadEvent vf, uploadEvent af] ∨
     ∃ inputs, (estimate_cost env vf af model).2 =
       [uploadEvent vf, uploadEvent af, CallEvent.estimate_cost inputs model]) ∧
    ((upload_and_generate env vf af model).2 = [uploadEvent vf] ∨
     (upload_and_generate env vf af model).2 = [uploadEvent vf, uploadEvent af] ∨
     ∃ inputs, (upload_and_generate env vf af model).2 =
       [uploadEvent vf, uploadEvent af, CallEvent.create inputs model]) :=
  ⟨estimate_cost_trace_cases env vf af model,
   upload_and_generate_trace_cases env vf af model⟩

/-- C8: `GET /` always returns the same static welcome payload and performs
no collaborator call at all. -/
theorem read_root_static_no_calls {α : Type} (env : Env α) :
    read_root env =
      ({ message := "Welcome to the LipSync API. Visit /docs for documentation." },
       ([] : List CallEvent)) := rfl

/-- C9: when the `API_KEY` environment variable is absent or empty, module
load raises `RuntimeError("API_KEY environment variable not set.")` and the
service never starts; when it holds a non-empty value, startup proceeds with
that key. -/
theorem startup_requires_api_key (apiKeyEnv : Option String) :
    ((apiKeyEnv = none ∨ apiKeyEnv = some "") →
      startup apiKeyEnv = .error (.generic "API_KEY environment variable not set.")) ∧
    ∀ k : String, apiKeyEnv = some k → k ≠ "" → startup apiKeyEnv = .ok k := by
  constructor
  · rintro (h | h) <;> simp [startup, pyTruthy, String.isEmpty_iff, h]
  · intro k hk hne
    simp [startup, pyTruthy, String.isEmpty_iff, hk, hne]

/-- Witness for C9: startup fails with no key and proceeds with one. -/
theorem startup_requires_api_key_witness :
    startup none = .error (.generic "API_KEY environment variable not set.") ∧
    startup (some "sk-test") = .ok "sk-test" :=
  ⟨(startup_requires_api_key none).1 (Or.inl rfl),
   (startup_requires_api_key (some "sk-test")).2 "sk-test" rfl (by decide)⟩

/-- C6: when the `model` field is omitted, the value passed onward is exactly
`"lipsync-2"`: pydantic parsing and the form default both resolve to it, and
every Generation Client call made by `POST /generations` (with the parsed
request), `POST /generations/estimate-cost` or `POST /upload-and-generate`
(with the resolved form value) carries model `"lipsync-2"`. -/
theorem model_defaults_to_lipsync2 {α : Type} (env : Env α)
    (video_url audio_url : String) (vf af : UploadFile) :
    (CreateGenerationRequest.ofBody ⟨video_url, audio_url, none⟩).model = "lipsync-2" ∧
    formModel none = "lipsync-2" ∧
    (∀ inp m, CallEvent.create inp m ∈
        (create_generation env
          (CreateGenerationRequest.ofBody ⟨video_url, audio_url, none⟩)).2 →
      m = "lipsync-2") ∧
    (∀ inp m, CallEvent.estimate_cost inp m ∈
        (estimate_cost env vf af (formModel none)).2 →
      m = "lipsync-2") ∧
    (∀ inp m, CallEvent.create inp m ∈
        (upload_and_generate env vf af (formModel none)).2 →
      m = "lipsync-2") := by
  refine ⟨rfl, rfl, ?_, ?_, ?_⟩
  · intro inp m hm
    cases h : env.create [InputItem.video ⟨video_url⟩, InputItem.audio ⟨audio_url⟩]
        "lipsync-2" <;>
      simp [create_generation, create_generation_body, exceptWrap,
        CreateGenerationRequest.ofBody, h] at hm <;>
      exact hm.2
  · intro inp m hm
    rcases estimate_cost_trace_cases env vf af (formModel none) with ht | ht | ⟨inputs, ht⟩ <;>
      rw [ht] at hm <;> simp [uploadEvent] at hm
    exact hm.2
  · intro inp m hm
    rcases upload_and_generate_trace_cases env vf af (formModel none) with ht | ht | ⟨inputs, ht⟩ <;>
      rw [ht] at hm <;> simp [uploadEvent] at hm
    exact hm.2

/-- Witness for C6 at a concrete environment in which every client call
succeeds. -/
theorem model_defaults_to_lipsync2_witness :
    CallEvent.create [InputItem.video ⟨"https://x/v.mp4"⟩, InputItem.audio ⟨"https://x/a.mp3"⟩]
        "lipsync-2" ∈
      (create_generation envOkNat
        (CreateGenerationRequest.ofBody ⟨"https://x/v.mp4", "https://x/a.mp3", none⟩)).2 ∧
    "lipsync-2" = "lipsync-2" :=
  ⟨List.mem_singleton.mpr rfl,
   (model_defaults_to_lipsync2 envOkNat "https://x/v.mp4" "https://x/a.mp3"
      ⟨"v.mp4"⟩ ⟨"a.mp3"⟩).2.2.1
     [InputItem.video ⟨"https://x/v.mp4"⟩, InputItem.audio ⟨"https://x/a.mp3"⟩]
     "lipsync-2" (List.mem_singleton.mpr rfl)⟩
